import Mathlib

/-
Shallow embedding of the Crypto-Data-Service ingestion core and proofs
about its behaviour.

Embedded sources:
* `src/backfill_15m.py` — 15-minute aggregation of 1-minute candles
  (bucketing arithmetic and the OHLCV fold of its SQL);
* `src/streamer.py`     — per-symbol kline fetch with "1000"-prefixed
  fallback, the in-memory invalid-symbol set, per-record bucketing by
  `AGG_INT = 900`, and `INSERT OR REPLACE` upserts;
* `src/futures_metrics_streamer.py` — open-interest / funding-rate fetch
  with the `FUTURES_MAP` alias cache and `"1000" + symbol` fallback;
* `src/api.py`          — `_to_dt` timestamp normalization, `get_candles`
  (query, ordering, reversal, `latest_ts` update) and `health`.

Conventions: SQLite INTEGER timestamps are `ℕ` (all stored timestamps are
non-negative epoch values, so SQLite's truncating division is floor
division); SQLite REAL columns and Python floats are modelled as `ℚ`
(every numeric literal occurring in the claims is exactly representable);
a table is a list of (key, row) pairs whose key is `(symbol, timestamp)`;
network traffic is made observable by returning the list of identifiers
queried, in order, alongside each operation's result.
-/

namespace CryptoData

/-- Candle row as returned by `get_klines` / stored in the `candles`
tables: `{timestamp, open, high, low, close, volume}` (the symbol lives
in the table key).  `open` is a Lean keyword, hence the field `open_`. -/
structure Candle where
  ts : ℕ
  open_ : ℚ
  high : ℚ
  low : ℚ
  close : ℚ
  volume : ℚ
deriving DecidableEq

/-- SQLite `INSERT OR REPLACE` keyed by `(symbol, timestamp)` (the
declared PRIMARY KEY of every table in the repository): delete any row
with the conflicting key, then insert the new full row.  Models
`Streamer._upsert`, the futures/macro/order-book `upsert`s and the
backfill's `INSERT OR REPLACE`.  The list is read as a row set. -/
def upsert {β : Type} (tbl : List ((String × ℕ) × β)) (k : String × ℕ) (r : β) :
    List ((String × ℕ) × β) :=
  (k, r) :: tbl.filter (fun p => p.1 ≠ k)

/-- Bucket-start arithmetic `(c.timestamp/900000)*900000` from the
backfill SQL's inner SELECT (SQLite integer division; floor on `ℕ`). -/
def backfillBucket (ts : ℕ) : ℕ := ts / 900000 * 900000

/-- `AGG_INT = 900` from `streamer.py`. -/
def AGG_INT : ℕ := 900

/-- Per-record bucketing `bucket['timestamp'] = (c['timestamp']//AGG_INT)*AGG_INT`
from `Streamer.run`, applied to a millisecond timestamp. -/
def streamerBucket (ts : ℕ) : ℕ := ts / AGG_INT * AGG_INT

/-- Claim C1: every bucketing path is claimed to map millisecond
timestamp 1700000123456 (bucket width 900000 ms) to bucket start
1700000100000.  The backfill path does; the streamer path divides the
millisecond timestamp by the raw seconds value `AGG_INT = 900` and
produces 1700000123400 instead, so the two paths disagree on the claimed
input. -/
theorem bucket_paths_disagree :
    backfillBucket 1700000123456 = 1700000100000 ∧
    streamerBucket 1700000123456 = 1700000123400 ∧
    ¬ streamerBucket 1700000123456 = 1700000100000 :=
  ⟨rfl, rfl, by decide⟩

theorem upsert_upsert {β : Type} (tbl : List ((String × ℕ) × β)) (k : String × ℕ) (r : β) :
    upsert (upsert tbl k r) k r = upsert tbl k r := by
  simp [upsert, List.filter_cons, List.filter_filter]

theorem iterate_upsert {β : Type} (m : ℕ) (tbl : List ((String × ℕ) × β))
    (k : String × ℕ) (r : β) :
    (fun s => upsert s k r)^[m] (upsert tbl k r) = upsert tbl k r := by
  induction m with
  | zero => rfl
  | succ m ih =>
    rw [Function.iterate_succ_apply, upsert_upsert, ih]

theorem filter_eq_of_filter_ne {β : Type} (tbl : List ((String × ℕ) × β)) (k : String × ℕ) :
    (tbl.filter (fun p => p.1 ≠ k)).filter (fun p => p.1 = k) = [] := by
  induction tbl with
  | nil => rfl
  | cons a t ih =>
    by_cases h : a.1 = k <;> simp [List.filter_cons, h, ih]

theorem filter_and_ne {β : Type} (tbl : List ((String × ℕ) × β)) (k k' : String × ℕ)
    (hk : k' ≠ k) :
    tbl.filter (fun p => decide (p.1 = k') && decide (p.1 ≠ k)) =
      tbl.filter (fun p => p.1 = k') := by
  refine List.filter_congr ?_
  intro a _
  by_cases h' : a.1 = k'
  · simp [h', hk]
  · simp [h']

theorem filter_other_key {β : Type} (tbl : List ((String × ℕ) × β)) (k k' : String × ℕ)
    (r : β) (hk : k' ≠ k) :
    (upsert tbl k r).filter (fun p => p.1 = k') = tbl.filter (fun p => p.1 = k') := by
  have h1 : ¬ ((k, r).1 = k') := fun h => hk h.symm
  rw [upsert, List.filter_cons, if_neg (by simpa using h1), List.filter_filter]
  exact filter_and_ne tbl k k' hk

/-- Claim C7: upsert is idempotent — `n ≥ 1` repeated upserts of the same
`(symbol, timestamp)` key and record equal a single upsert; afterwards
the store holds exactly one row for that key, that row's fields equal the
record, and rows at every other key are untouched (replace, never
duplicate). -/
theorem upsert_idempotent (tbl : List ((String × ℕ) × Candle)) (k : String × ℕ)
    (r : Candle) (n : ℕ) (hn : 1 ≤ n) (k' : String × ℕ) (hk : k' ≠ k) :
    (fun s => upsert s k r)^[n] tbl = upsert tbl k r ∧
    (upsert tbl k r).filter (fun p => p.1 = k) = [(k, r)] ∧
    (upsert tbl k r).countP (fun p => p.1 = k) = 1 ∧
    (upsert tbl k r).filter (fun p => p.1 = k') = tbl.filter (fun p => p.1 = k') := by
  obtain ⟨m, rfl⟩ : ∃ m, n = m + 1 := ⟨n - 1, by omega⟩
  have hfilter : (upsert tbl k r).filter (fun p => p.1 = k) = [(k, r)] := by
    simp [upsert, List.filter_cons, filter_eq_of_filter_ne]
  refine ⟨?_, hfilter, ?_, ?_⟩
  · rw [Function.iterate_succ_apply, iterate_upsert]
  · rw [List.countP_eq_length_filter, hfilter]
    rfl
  · exact filter_other_key tbl k k' r hk

/-- Concrete store contents for the C7 witness. -/
def w7tbl : List ((String × ℕ) × Candle) :=
  [(("BTCUSDT", 900000), ⟨900000, 1, 2, 0, 1, 3⟩)]

/-- Replacement record for the C7 witness. -/
def w7r : Candle := ⟨900000, 5, 6, 4, 5, 7⟩

theorem upsert_idempotent_witness :
    (fun s => upsert s ("BTCUSDT", 900000) w7r)^[3] w7tbl =
      upsert w7tbl ("BTCUSDT", 900000) w7r ∧
    (upsert w7tbl ("BTCUSDT", 900000) w7r).filter
      (fun p => p.1 = ("BTCUSDT", 900000)) = [(("BTCUSDT", 900000), w7r)] ∧
    (upsert w7tbl ("BTCUSDT", 900000) w7r).countP
      (fun p => p.1 = ("BTCUSDT", 900000)) = 1 ∧
    (upsert w7tbl ("BTCUSDT", 900000) w7r).filter
      (fun p => p.1 = ("ETHUSDT", 900000)) =
      w7tbl.filter (fun p => p.1 = ("ETHUSDT", 900000)) :=
  upsert_idempotent w7tbl ("BTCUSDT", 900000) w7r 3 (by decide)
    ("ETHUSDT", 900000) (by decide)

namespace Backfill

/-- Aggregation of one bucket's candle rows, translated from the
`INSERT OR REPLACE INTO candles_900s ... SELECT ... GROUP BY symbol,
ts_bucket` statement of `backfill_15m.py`, reading its Oracle-style
clauses by their evident intent: `MIN(open) KEEP (FIRST ORDER BY ts_in)`
is the open of the earliest row, `MAX(high)` / `MIN(low)` the extrema,
`MIN(close) KEEP (LAST ORDER BY ts_in)` the close of the latest row, and
`SUM(volume)` the volume sum.  (As committed the `KEEP` clauses are not
SQLite syntax — `sqlite3` raises `OperationalError: near "(": syntax
error` when the script runs, see claim C3 — so this captures what the
statement was written to compute.)  Timestamps are unique per symbol by
PRIMARY KEY, so earliest/latest rows are unambiguous.  `earliest` /
`latest` pick the row with minimal / maximal `ts_in`, i.e. the SQL's
`FIRST ORDER BY ts_in` / `LAST ORDER BY ts_in` row. -/
def earliest : List Candle → Option Candle
  | [] => none
  | c :: cs =>
    match earliest cs with
    | none => some c
    | some e => some (if e.ts < c.ts then e else c)

def latest : List Candle → Option Candle
  | [] => none
  | c :: cs =>
    match latest cs with
    | none => some c
    | some lrow => some (if c.ts < lrow.ts then lrow else c)

def agg (rs : List Candle) : Option Candle :=
  match earliest rs, latest rs with
  | some e, some lrow =>
      some { ts := backfillBucket e.ts
             open_ := e.open_
             high := (rs.map Candle.high).foldr max e.high
             low := (rs.map Candle.low).foldr min e.low
             close := lrow.close
             volume := (rs.map Candle.volume).foldr (· + ·) 0 }
  | _, _ => none

/-- The three 1-minute records of claim C3, in timestamp order, all in
the 15-minute bucket starting at 1700000100000. -/
def c3rows : List Candle :=
  [⟨1700000100000, 10, 12, 9, 11, 5⟩,
   ⟨1700000160000, 11, 13, 8, 9, 6⟩,
   ⟨1700000220000, 9, 10, 7, 10, 4⟩]

/-- Claim C3: on the three claimed records the backfill SQL's intended
fold yields open=10 (earliest), high=13, low=7, close=10 (latest),
volume=15 — but note (see the doc of `agg` and claim C3's result entry)
that the committed SQL text itself is rejected by SQLite, so the script
crashes instead of producing this row. -/
theorem ohlcv_fold_intended :
    agg c3rows = some ⟨1700000100000, 10, 13, 7, 10, 15⟩ := by
  norm_num [agg, c3rows, earliest, latest, backfillBucket, max_def, min_def]

end Backfill

namespace Streamer

/-- Outcome of one `client.get_klines(symbol=..., interval='1m', limit=1)`
call as classified by the exception handling in `Streamer._fetch`:
success with a kline row, an exception whose text contains
"Invalid symbol", or any other exception (timeout, rate limit, 5xx,
malformed payload, ...). -/
inductive KlinesRes where
  | ok (k : Candle)
  | invalidSym
  | err
deriving DecidableEq

/-- `Streamer._fetch`: query the primary symbol; if that raises an
"Invalid symbol" error and `sym` starts with `"1000"`, retry once with
the underlying spot symbol `sym[4:]`; every failure path that is not
rescued by that fallback executes `self.invalid.add(sym)` and returns
`None`.  The oracle `o` supplies each identifier's network outcome.
Returns (candle result, updated invalid set, identifiers queried in
order). -/
def fetch (invalid : List String) (o : String → KlinesRes) (sym : String) :
    Option Candle × List String × List String :=
  match o sym with
  | .ok k => (some k, invalid, [sym])
  | .invalidSym =>
      if sym.startsWith "1000" then
        match o (sym.drop 4) with
        | .ok k => (some k, invalid, [sym, sym.drop 4])
        | _ => (none, sym :: invalid, [sym, sym.drop 4])
      else (none, sym :: invalid, [sym])
  | .err => (none, sym :: invalid, [sym])

/-- One per-symbol iteration of the loop body in `Streamer.run`: symbols
in `self.invalid` are skipped (`continue`) with no network call;
otherwise the symbol is fetched and, on success, the raw candle is
upserted into `candles` and a copy with bucketed timestamp into
`candles_900s`.  Returns (invalid set, candles table, candles_900s
table, identifiers queried). -/
def runSym (invalid : List String) (candles c900 : List ((String × ℕ) × Candle))
    (o : String → KlinesRes) (sym : String) :
    List String × List ((String × ℕ) × Candle) × List ((String × ℕ) × Candle) × List String :=
  if sym ∈ invalid then (invalid, candles, c900, [])
  else
    match fetch invalid o sym with
    | (some c, inv', qs) =>
        (inv', upsert candles (sym, c.ts) c,
          upsert c900 (sym, streamerBucket c.ts) { c with ts := streamerBucket c.ts }, qs)
    | (none, inv', qs) => (inv', candles, c900, qs)

/-- Claim C2 (evaluation at the failing input): a transient error — any
exception whose text does not contain "Invalid symbol", e.g. a timeout —
makes `Streamer._fetch` add the symbol to `self.invalid`: starting from
an empty invalid set, fetching "ETHUSDT" against an oracle that always
fails transiently returns no candle and an invalid set that now contains
"ETHUSDT", so the fetch does not leave the invalid set unchanged. -/
theorem transient_error_blacklists :
    fetch [] (fun _ => KlinesRes.err) "ETHUSDT" =
      (none, ["ETHUSDT"], ["ETHUSDT"]) := rfl

theorem fetch_invalid_mono (inv : List String) (o : String → KlinesRes) (s x : String)
    (hx : x ∈ inv) : x ∈ (fetch inv o s).2.1 := by
  unfold fetch
  split
  · exact hx
  · by_cases hs : s.startsWith "1000"
    · rw [if_pos hs]
      split
      · exact hx
      · exact List.mem_cons_of_mem _ hx
    · rw [if_neg hs]
      exact List.mem_cons_of_mem _ hx
  · exact List.mem_cons_of_mem _ hx

theorem runSym_invalid_eq (inv : List String) (c1 c2 : List ((String × ℕ) × Candle))
    (o : String → KlinesRes) (s : String) :
    (runSym inv c1 c2 o s).1 = if s ∈ inv then inv else (fetch inv o s).2.1 := by
  unfold runSym
  by_cases hs : s ∈ inv
  · rw [if_pos hs, if_pos hs]
  · rw [if_neg hs, if_neg hs]
    rcases h : fetch inv o s with ⟨c, inv', qs⟩
    cases c <;> rfl

/-- Claim C6: when the primary lookup fails with a definitive
unknown-instrument response and the streamer's only fallback (the spot
symbol `sym[4:]`, attempted when `sym` starts with `"1000"`) also fails
with unknown-instrument, `_fetch` returns no candle and the symbol is in
the invalid set afterwards; every later per-symbol step for a symbol in
the invalid set is skipped — zero network calls, stores untouched — and
running any other symbol never removes it from the invalid set. -/
theorem resolver_blacklist (invalid inv2 : List String) (o o2 : String → KlinesRes)
    (sym s2 : String) (c1 c2 : List ((String × ℕ) × Candle))
    (hp : o sym = .invalidSym) (hf : o (sym.drop 4) = .invalidSym) (h2 : sym ∈ inv2) :
    (fetch invalid o sym).1 = none ∧
    sym ∈ (fetch invalid o sym).2.1 ∧
    runSym inv2 c1 c2 o2 sym = (inv2, c1, c2, []) ∧
    sym ∈ (runSym inv2 c1 c2 o2 s2).1 := by
  refine ⟨?_, ?_, ?_, ?_⟩
  · unfold fetch
    rw [hp]
    by_cases hs : sym.startsWith "1000"
    · rw [if_pos hs, hf]
    · rw [if_neg hs]
  · unfold fetch
    rw [hp]
    by_cases hs : sym.startsWith "1000"
    · rw [if_pos hs, hf]
      exact List.mem_cons_self _ _
    · rw [if_neg hs]
      exact List.mem_cons_self _ _
  · unfold runSym
    rw [if_pos h2]
  · rw [runSym_invalid_eq]
    by_cases hss : s2 ∈ inv2
    · rwa [if_pos hss]
    · rw [if_neg hss]
      exact fetch_invalid_mono inv2 o2 s2 sym h2

/-- Oracle for the C6 witness: every identifier is unknown to the
exchange. -/
def o6 : String → KlinesRes := fun _ => KlinesRes.invalidSym

theorem resolver_blacklist_witness :
    (fetch [] o6 "1000PEPEUSDT").1 = none ∧
    "1000PEPEUSDT" ∈ (fetch [] o6 "1000PEPEUSDT").2.1 ∧
    runSym ["1000PEPEUSDT"] [] [] o6 "1000PEPEUSDT" = (["1000PEPEUSDT"], [], [], []) ∧
    "1000PEPEUSDT" ∈ (runSym ["1000PEPEUSDT"] [] [] o6 "BTCUSDT").1 :=
  resolver_blacklist [] ["1000PEPEUSDT"] o6 o6 "1000PEPEUSDT" "BTCUSDT" [] []
    rfl rfl (by simp)

end Streamer

namespace Api

/-- Row of the `candles` table as read by `api.py`'s SELECT:
`timestamp, open, high, low, close, volume` for a symbol. -/
structure CandleRow where
  symbol : String
  timestamp : ℕ
  open_ : ℚ
  high : ℚ
  low : ℚ
  close : ℚ
  volume : ℚ
deriving DecidableEq

/-- Candle dict of the response body,
`dict(zip(["ts","open","high","low","close","vol"], row))`. -/
structure CandleOut where
  ts : ℕ
  open_ : ℚ
  high : ℚ
  low : ℚ
  close : ℚ
  vol : ℚ
deriving DecidableEq

def rowOut (r : CandleRow) : CandleOut :=
  ⟨r.timestamp, r.open_, r.high, r.low, r.close, r.volume⟩

/-- `_to_dt(ts_int)`: convert a seconds- or milliseconds-valued integer
timestamp to an instant, modelled as rational seconds since the epoch
(the value `datetime.fromtimestamp` receives).  Values above the fixed
magnitude threshold `1e12` are taken to be milliseconds and divided by
1000 (an exact float division for the magnitudes involved, modelled
exactly in `ℚ`). -/
def toDt (ts : ℕ) : ℚ := if (ts : ℚ) > 10 ^ 12 then (ts : ℚ) / 1000 else (ts : ℚ)

/-- Module-level mutable state of `api.py`: `latest_ts`, initialized
at module load to `datetime.now(tz=utc)` (the process start instant) and
reassigned only inside `get_candles`.  Rational seconds since epoch. -/
structure ApiState where
  latest_ts : ℚ
deriving DecidableEq

/-- `symbol.upper()`: uppercase each character.  (Written over the
character list so that it evaluates by structural recursion;
`String.toUpper` itself is defined through `String.mapAux`, whose
well-founded recursion does not reduce definitionally.) -/
def upper (s : String) : String := ⟨s.data.map Char.toUpper⟩

/-- `ORDER BY timestamp DESC`: row `a` precedes row `b` when
`b.timestamp ≤ a.timestamp`. -/
def tsDesc (a b : CandleRow) : Prop := b.timestamp ≤ a.timestamp

instance : DecidableRel tsDesc := fun _ _ => Nat.decLe _ _

instance : IsTotal CandleRow tsDesc := ⟨fun a b => Nat.le_total b.timestamp a.timestamp⟩

instance : IsTrans CandleRow tsDesc := ⟨fun _ _ _ hab hbc => le_trans hbc hab⟩

/-- `SELECT timestamp, open, high, low, close, volume FROM candles WHERE
symbol=? ORDER BY timestamp DESC LIMIT ?`: the symbol's rows, most
recent first, at most `lim` of them.  `lim` ranges over row counts
(`ℕ`); insertion sort realizes ORDER BY (the stored row order is
immaterial and `(symbol, timestamp)` is the PRIMARY KEY, so the sorted
order is unique). -/
def queryCandles (rows : List CandleRow) (sym : String) (lim : ℕ) : List CandleRow :=
  ((rows.filter (fun r => r.symbol = sym)).insertionSort tsDesc).take lim

/-- Response body of `GET /candles/{symbol}/{tf}`. -/
structure CandlesResp where
  symbol : String
  tf : String
  count : ℕ
  candles : List CandleOut
  latest_time : Option ℕ
deriving DecidableEq

/-- `get_candles(symbol, tf, limit)`: uppercase the symbol, query the
`candles` table, set `latest_ts` to the `_to_dt` instant of the most
recent returned row when the result is non-empty, and respond with the
candles reversed (most recent last), their count, and the most recent
raw timestamp. -/
def get_candles (st : ApiState) (rows : List CandleRow) (symbol tf : String) (lim : ℕ) :
    CandlesResp × ApiState :=
  let symU := upper symbol
  let cs := queryCandles rows symU lim
  (⟨symU, tf, cs.length, (cs.map rowOut).reverse, cs.head?.map (·.timestamp)⟩,
    match cs.head? with
    | some c => ⟨toDt c.timestamp⟩
    | none => st)

/-- Response body of `GET /health`. -/
structure HealthResp where
  ok : Bool
  age_sec : ℚ
deriving DecidableEq

/-- `health()`: `age = now - latest_ts` in seconds; `ok` iff `age < 120`. -/
def health (st : ApiState) (now : ℚ) : HealthResp :=
  ⟨decide (now - st.latest_ts < 120), now - st.latest_ts⟩

/-- Claim C8: `_to_dt` maps a seconds-valued and a milliseconds-valued
encoding of the same instant to the same normalized instant: for any
seconds value not above the `1e12` threshold whose millisecond form
exceeds the threshold, both normalize to the same value. -/
theorem ts_normalization (s : ℕ) (h1 : ¬ ((s : ℚ) > 10 ^ 12))
    (h2 : (((1000 * s : ℕ) : ℚ) > 10 ^ 12)) :
    toDt (1000 * s) = toDt s := by
  unfold toDt
  rw [if_pos h2, if_neg h1]
  push_cast
  field_simp

theorem ts_normalization_witness : toDt 1700000000000 = toDt 1700000000 :=
  ts_normalization 1700000000 (by norm_num) (by norm_num)

/-- Claim C9: the candles returned by `get_candles` are ordered by
timestamp ascending (most recent last), number at most `lim`, and the
response's `count` field equals their number. -/
theorem get_candles_ordered (st : ApiState) (rows : List CandleRow)
    (symbol tf : String) (lim : ℕ) :
    List.Sorted (fun a b : CandleOut => a.ts ≤ b.ts)
        (get_candles st rows symbol tf lim).1.candles ∧
    (get_candles st rows symbol tf lim).1.candles.length ≤ lim ∧
    (get_candles st rows symbol tf lim).1.count =
      (get_candles st rows symbol tf lim).1.candles.length := by
  refine ⟨?_, ?_, ?_⟩
  · have hs : List.Pairwise tsDesc
        ((rows.filter (fun r => r.symbol = upper symbol)).insertionSort tsDesc) :=
      List.sorted_insertionSort tsDesc _
    have ht : List.Pairwise tsDesc (queryCandles rows (upper symbol) lim) :=
      List.Pairwise.sublist (List.take_sublist _ _) hs
    show List.Sorted (fun a b : CandleOut => a.ts ≤ b.ts)
      ((queryCandles rows (upper symbol) lim).map rowOut).reverse
    rw [List.Sorted, List.pairwise_reverse, List.pairwise_map]
    exact ht
  · show (((queryCandles rows (upper symbol) lim).map rowOut).reverse).length ≤ lim
    rw [List.length_reverse, List.length_map]
    unfold queryCandles
    rw [List.length_take]
    exact min_le_left _ _
  · show (queryCandles rows (upper symbol) lim).length =
      (((queryCandles rows (upper symbol) lim).map rowOut).reverse).length
    rw [List.length_reverse, List.length_map]

/-- Claim C10: `get_candles` ignores its granularity path parameter
except to echo it back: with the same store, symbol and limit, any two
granularities yield identical candles, count, latest_time, symbol and
post-call state; the `tf` field of each response is the argument
unchanged (the query always reads the 1-minute `candles` table). -/
theorem get_candles_tf_ignored (st : ApiState) (rows : List CandleRow)
    (symbol : String) (lim : ℕ) (tf1 tf2 : String) :
    (get_candles st rows symbol tf1 lim).1.candles =
      (get_candles st rows symbol tf2 lim).1.candles ∧
    (get_candles st rows symbol tf1 lim).1.count =
      (get_candles st rows symbol tf2 lim).1.count ∧
    (get_candles st rows symbol tf1 lim).1.latest_time =
      (get_candles st rows symbol tf2 lim).1.latest_time ∧
    (get_candles st rows symbol tf1 lim).1.symbol =
      (get_candles st rows symbol tf2 lim).1.symbol ∧
    (get_candles st rows symbol tf1 lim).2 =
      (get_candles st rows symbol tf2 lim).2 ∧
    (get_candles st rows symbol tf1 lim).1.tf = tf1 ∧
    (get_candles st rows symbol tf2 lim).1.tf = tf2 :=
  ⟨rfl, rfl, rfl, rfl, rfl, rfl, rfl⟩

/-- Store contents for the claim C4 counterexample: a single candle
whose seconds-valued timestamp 999870 is 130 seconds before the chosen
"now" of 1000000. -/
def c4rows : List CandleRow := [⟨"BTCUSDT", 999870, 1, 2, 0, 1, 3⟩]

/-- Claim C4 is false as stated: it demands `ok=false` whenever the most
recent stored candle is more than 120 s old "regardless of which other
endpoints have been called in the process".  But `latest_ts` holds the
process start instant until some `get_candles` call observes candles: at
`now = 1000000`, with the store `c4rows` whose only (hence most recent)
candle normalizes to instant 999870 — 130 s old, beyond the threshold —
a process that has served no `get_candles` call answers `ok=true`.
Second discrepancy, at the boundary: at age exactly 120 s the code
answers `ok=false`, while "more than 120 seconds" demands `ok=true`. -/
theorem health_stale_claim_false :
    (health ⟨(1000000 : ℚ)⟩ 1000000).ok = true ∧
    c4rows.map (fun r => toDt r.timestamp) = [(999870 : ℚ)] ∧
    ((1000000 : ℚ) - 999870 > 120) ∧
    (health ⟨(880 : ℚ)⟩ 1000).ok = false ∧
    ¬ ((1000 : ℚ) - 880 > 120) := by
  refine ⟨?_, ?_, by norm_num, ?_, by norm_num⟩
  · norm_num [health]
  · norm_num [c4rows, toDt]
  · norm_num [health]

/-- Claim C4 amended: `health()` returns `ok=false` exactly when the
cached `latest_ts` — the process start instant until a `get_candles`
call returns at least one candle, thereafter the normalized timestamp of
the most recent candle of the last such call — is at least 120 seconds
before now.  In particular, right after a `get_candles` call whose most
recent candle is 130 seconds old, `health()` returns `ok=false`. -/
theorem health_staleness (st : ApiState) (rows : List CandleRow) (symbol tf : String)
    (lim : ℕ) (now : ℚ) (c : CandleRow)
    (hc : (queryCandles rows (upper symbol) lim).head? = some c) :
    ((health (get_candles st rows symbol tf lim).2 now).ok = false ↔
      now - toDt c.timestamp ≥ 120) := by
  simp only [get_candles, hc]
  simp [health, decide_eq_false_iff_not, not_lt, ge_iff_le]

theorem health_staleness_witness :
    (queryCandles c4rows (upper "BTCUSDT") 200).head? =
      some ⟨"BTCUSDT", 999870, 1, 2, 0, 1, 3⟩ ∧
    (health (get_candles ⟨(1000000 : ℚ)⟩ c4rows "BTCUSDT" "15m" 200).2 1000000).ok
      = false :=
  ⟨rfl, (health_staleness ⟨1000000⟩ c4rows "BTCUSDT" "15m" 200 1000000
    ⟨"BTCUSDT", 999870, 1, 2, 0, 1, 3⟩ rfl).mpr (by norm_num [toDt])⟩

end Api

namespace Futures

/-- Outcome of one endpoint call in `futures_metrics_streamer.py`:
success, a `BinanceAPIException` with code -1121 (invalid symbol), or
any other error. -/
inductive EndRes where
  | ok
  | invalid
  | err
deriving DecidableEq

/-- `_try(symbol_to_query)` from `fetch_for_symbol`: query open interest,
then the premium index, for one identifier.  Each block swallows every
error except a `BinanceAPIException` with code -1121, which it re-raises
(modelled as `Except.error ()`; an open-interest -1121 propagates before
the funding call happens).  Otherwise `_try` returns whether at least
one of the two values was obtained (and upserted).  The oracle `o` gives
the (open-interest, premium-index) outcomes per identifier. -/
def tryQuery (o : String → EndRes × EndRes) (q : String) : Except Unit Bool :=
  if (o q).1 = EndRes.invalid then Except.error ()
  else if (o q).2 = EndRes.invalid then Except.error ()
  else Except.ok (decide ((o q).1 = EndRes.ok) || decide ((o q).2 = EndRes.ok))

/-- `fetch_for_symbol(client, symbol)`: resolve through the process-wide
`FUTURES_MAP` dict (`fut_sym = FUTURES_MAP.get(symbol, symbol)`), run
`_try(fut_sym)` with the -1121 exception mapped to `success = False`,
and when not successful run `_try("1000" + symbol)` once, recording
`FUTURES_MAP[symbol] = "1000" + symbol` if that alternative succeeds.
This module keeps no invalid-symbol set: `FUTURES_MAP` is its entire
mutable state, and unresolved symbols are simply retried from scratch on
the next cycle.  Returns (updated map, identifiers queried in order);
the map is an association list whose head entry wins, matching dict
update. -/
def fetch_for_symbol (m : List (String × String)) (o : String → EndRes × EndRes)
    (symbol : String) : List (String × String) × List String :=
  let fut := (m.lookup symbol).getD symbol
  match tryQuery o fut with
  | .ok true => (m, [fut])
  | _ =>
    let alt := "1000" ++ symbol
    match tryQuery o alt with
    | .ok true => ((symbol, alt) :: m, [fut, alt])
    | _ => (m, [fut, alt])

/-- Claim C5: for a logical symbol not yet in `FUTURES_MAP` whose primary
lookup fails with the definitive unknown-instrument response (-1121) and
whose fallback `"1000" + symbol` succeeds, `fetch_for_symbol` (a)
queries exactly primary-then-fallback and succeeds on the fallback
identifier, (b) caches the alias, so a second call for the same logical
symbol resolves through the cache: it touches the network only for the
cached alias — the resolution step itself (`FUTURES_MAP.get`) is a pure
lookup making zero network calls, and the primary identifier is never
probed again — and leaves the map unchanged; and (c) the symbol is never
made unresolvable — this module has no invalid-symbol set (the map is
its entire mutable state) and the second call still fetches the
symbol's data. -/
theorem resolver_fallback (m : List (String × String)) (o : String → EndRes × EndRes)
    (symbol : String) (h0 : m.lookup symbol = none)
    (hp : tryQuery o symbol = Except.error ())
    (hf : tryQuery o ("1000" ++ symbol) = Except.ok true) :
    (fetch_for_symbol m o symbol).2 = [symbol, "1000" ++ symbol] ∧
    (fetch_for_symbol m o symbol).1.lookup symbol = some ("1000" ++ symbol) ∧
    fetch_for_symbol (fetch_for_symbol m o symbol).1 o symbol =
      ((fetch_for_symbol m o symbol).1, ["1000" ++ symbol]) := by
  have hm : fetch_for_symbol m o symbol =
      ((symbol, "1000" ++ symbol) :: m, [symbol, "1000" ++ symbol]) := by
    simp only [fetch_for_symbol, h0, Option.getD_none, hp, hf]
  have hl : ((symbol, "1000" ++ symbol) :: m).lookup symbol =
      some ("1000" ++ symbol) := by
    simp [List.lookup]
  have hsecond : fetch_for_symbol ((symbol, "1000" ++ symbol) :: m) o symbol =
      ((symbol, "1000" ++ symbol) :: m, ["1000" ++ symbol]) := by
    simp only [fetch_for_symbol, hl, Option.getD_some, hf]
  rw [hm]
  exact ⟨rfl, hl, hsecond⟩

/-- Oracle for the C5 witness: the exchange knows only the futures
contract "1000PEPEUSDT" (both endpoints succeed there); the logical
symbol "PEPEUSDT" itself gets the -1121 invalid-symbol response on its
first endpoint call. -/
def o5 : String → EndRes × EndRes := fun s =>
  if s = "1000PEPEUSDT" then (EndRes.ok, EndRes.ok) else (EndRes.invalid, EndRes.err)

theorem resolver_fallback_witness :
    (fetch_for_symbol [] o5 "PEPEUSDT").2 = ["PEPEUSDT", "1000" ++ "PEPEUSDT"] ∧
    (fetch_for_symbol [] o5 "PEPEUSDT").1.lookup "PEPEUSDT" =
      some ("1000" ++ "PEPEUSDT") ∧
    fetch_for_symbol (fetch_for_symbol [] o5 "PEPEUSDT").1 o5 "PEPEUSDT" =
      ((fetch_for_symbol [] o5 "PEPEUSDT").1, ["1000" ++ "PEPEUSDT"]) :=
  resolver_fallback [] o5 "PEPEUSDT" rfl rfl rfl

end Futures

end CryptoData
